import Mathlib

/-!
Shallow embedding of the repository-explorer tool layer (src/tools.py) of the
github-repository-explorer project, together with the fragments of Python and
standard-library semantics that the four tool functions rely on.

Conventions of the embedding:
* Python strings are Lean `String`s; Python character-level operations are
  modelled on `String.data` (lists of code points), matching Python's
  code-point view of `str`.
* The filesystem seen by a tool is passed in explicitly: a file read is a
  function `String → Except String (List String)` returning either the
  `readlines()` result (lines with their terminators) or a raised exception
  (`FileNotFoundError`, `PermissionError`, `UnicodeDecodeError`, ...);
  a directory listing is a function `String → ListdirResult`.
* Raised Python exceptions are `Except.error`; normal returns are `Except.ok`.
-/

/-- The `character_limit = 50000` constant used by the tools in src/tools.py. -/
def CHAR_LIMIT : Nat := 50000

/-- Python string slicing `s[:n]` for a non-negative bound: the first `n`
code points of `s`. -/
def pyTrunc (s : String) (n : Nat) : String := String.mk (s.data.take n)

/-- The ASCII whitespace characters removed by Python `str.strip()`. -/
def pyIsSpace (c : Char) : Bool :=
  c == ' ' || c == '\t' || c == '\n' || c == '\r' || c == '\x0b' || c == '\x0c'

/-- Python `str.strip()` on a code-point list: drop whitespace from the front,
then from the back (via reversal). -/
def pyStrip (l : List Char) : List Char :=
  ((l.dropWhile pyIsSpace).reverse.dropWhile pyIsSpace).reverse

/-- Python `str.strip()` on strings. -/
def pyStripS (s : String) : String := String.mk (pyStrip s.data)

/-- Does the code-point list `l` start with the code-point list `q`?
This is Python `str.startswith` at the character-list level, and also the
literal-segment matcher used below for the whole-word search checks. -/
def listStartsWith : List Char → List Char → Bool
  | [], _ => true
  | _ :: _, [] => false
  | q :: qs, c :: cs => (q == c) && listStartsWith qs cs

/-- Python `s.startswith(pre)`. -/
def strStartsWith (s pre : String) : Bool := listStartsWith pre.data s.data

/-- Python `str.split(sep)` for a single-character separator, on code-point
lists. `splitChar sep [] = [[]]`, matching `''.split(sep) == ['']`. -/
def splitChar (sep : Char) : List Char → List (List Char)
  | [] => [[]]
  | c :: rest =>
      match splitChar sep rest with
      | [] => [[]]
      | g :: gs => if c = sep then [] :: g :: gs else (c :: g) :: gs

/-- Python `path.split('/')` on strings. -/
def strSplitSlash (s : String) : List String := (splitChar '/' s.data).map String.mk

/-- Python `str.lower()` (ASCII range, which is what the repository's
directory entries exercise). -/
def strLower (s : String) : String := String.mk (s.data.map Char.toLower)

/-!
## FileSlice: `load_file_contents` (src/tools.py lines 110-166)
-/

/-- The slice upper bound computed by `(line_end + 1) if line_end else None`
on line 158 of src/tools.py.  Python treats `line_end = 0` as falsy, so an
explicit end line of `0` yields the same `None` bound as an absent end line. -/
def pySliceStop : Option Nat → Option Nat
  | none => none
  | some e => if e = 0 then none else some (e + 1)

/-- Python list slicing `l[start:stop]` for non-negative bounds:
`l[start:]` when `stop` is `None`, else the elements with indices in
`[start, stop)`. -/
def pySlice (l : List String) (start : Nat) : Option Nat → List String
  | none => l.drop start
  | some stop => (l.take stop).drop start

/-- Lines 158-164 of src/tools.py: slice the `readlines()` result, join,
truncate to `character_limit`, and substitute the sentinel for an empty
(falsy) result via `formatted_results or "No text was returned."`.
The `try` block on lines 162-166 only wraps the join and the truncation,
which cannot raise on a list of strings, so its `except` branch (returning
`"Error reading file: ..."`) is unreachable and does not appear here. -/
def load_file_slice (lines : List String) (line_start : Nat) (line_end : Option Nat) : String :=
  let contents := pySlice lines line_start (pySliceStop line_end)
  let formatted := pyTrunc (String.join contents) CHAR_LIMIT
  if formatted = "" then "No text was returned." else formatted

/-- `load_file_contents(path, line_start, line_end)` (src/tools.py
lines 110-166).  The `open`/`readlines` calls on lines 155-156 sit OUTSIDE
the `try` block, so a failure to open or decode the file propagates to the
caller as a raised exception (`Except.error`), not as a returned string. -/
def load_file_contents (fs : String → Except String (List String)) (path : String)
    (line_start : Nat) (line_end : Option Nat) : Except String String :=
  match fs path with
  | Except.error e => Except.error e
  | Except.ok lines => Except.ok (load_file_slice lines line_start line_end)

/-!
## Word-boundary matching used by `perform_string_search`

The source builds the pattern `r'\b' + query + r'\b'` (line 222 of
src/tools.py, with no escaping of the query) and calls `re.search` on each
candidate line.  We embed `re.search` for the pattern fragment actually
reachable from such patterns when the query consists of literal characters
and the `.` wildcard: a `\b` anchor, the query's characters (each consuming
one input character, `.` matching any character except a newline), and a
closing `\b` anchor.  Word characters follow `\w` on ASCII text:
alphanumerics and underscore.
-/

/-- ASCII `\w`: alphanumeric or underscore. -/
def isWordChar (c : Char) : Bool := c.isAlphanum || c == '_'

/-- Whether position `i` of `l` holds a word character (`false` past the
end of the input). -/
def charAtWord (l : List Char) (i : Nat) : Bool :=
  match l.get? i with
  | some c => isWordChar c
  | none => false

/-- The regex anchor `\b` at position `i` of `l`: exactly one of the two
adjacent positions holds a word character (string edges count as non-word). -/
def boundaryAt (l : List Char) (i : Nat) : Bool :=
  (if i = 0 then false else charAtWord l (i - 1)) != charAtWord l i

/-- One pattern character against one input character: `.` matches anything
but a newline, any other character matches itself. -/
def patCharMatch (p c : Char) : Bool := if p == '.' then c != '\n' else p == c

/-- Match the pattern characters against a prefix of the input suffix. -/
def patMatchAt : List Char → List Char → Bool
  | [], _ => true
  | _ :: _, [] => false
  | p :: ps, c :: cs => patCharMatch p c && patMatchAt ps cs

/-- `re.search(r'\b' + query + r'\b', line)` viewed as a Bool (Python
truthiness of the match object): some start position satisfies the opening
anchor, the pattern, and the closing anchor. -/
def wordBoundSearch (pat l : List Char) : Bool :=
  (List.range (l.length + 1)).any
    (fun i => boundaryAt l i && patMatchAt pat (l.drop i) && boundaryAt l (i + pat.length))

/-- `query in line` (Python substring containment) on code-point lists. -/
def pySubstr (q l : List Char) : Bool :=
  (List.range (l.length + 1)).any (fun i => listStartsWith q (l.drop i))

/-- The per-line acceptance check of `perform_string_search` (src/tools.py
lines 221-224): the substring pre-filter `query in line`, then the
boundary-anchored `re.search(r'\b' + query + r'\b', line)` confirmation. -/
def hitLine (query line : String) : Bool :=
  pySubstr query.data line.data && wordBoundSearch query.data line.data

/-- Modelled from the spec: the comparison target of the refinement claim —
a direct whole-word boundary match of the query "treated as a literal string
with metacharacters escaped", i.e. `re.search` of `\b`, `re.escape(query)`,
`\b`: every query character matches only itself. -/
def litWordSearch (q l : List Char) : Bool :=
  (List.range (l.length + 1)).any
    (fun i => boundaryAt l i && listStartsWith q (l.drop i) && boundaryAt l (i + q.length))

/-- The spec-side acceptance predicate on strings. -/
def literalWordAccepts (query line : String) : Bool :=
  litWordSearch query.data line.data

/-- The characters that are special in Python regular expressions (the set
escaped by `re.escape` that changes matching semantics). -/
def isRegexMeta (c : Char) : Bool :=
  c == '.' || c == '^' || c == '$' || c == '*' || c == '+' || c == '?' ||
  c == '\\' || c == '[' || c == ']' || c == '(' || c == ')' || c == '|' ||
  c == Char.ofNat 123 || c == Char.ofNat 125

/-!
## LexicalSearcher: `perform_string_search` (src/tools.py lines 169-236)
-/

mutual
/-- A filesystem entry as seen by `os.walk`: a file with its decoded lines
(`none` when opening or decoding it raises, which the bare `except` on line
231 of src/tools.py turns into a silent skip), or a directory. -/
inductive FSEntry where
  | file (name : String) (content : Option (List String))
  | dir (name : String) (entries : FSEntries)
/-- Directory contents in `os.listdir` order. -/
inductive FSEntries where
  | nil
  | cons (head : FSEntry) (tail : FSEntries)
end

/-- `os.path.join(root, name)` for the relative components produced here. -/
def pyJoin (a b : String) : String := a ++ "/" ++ b

/-- The `(file, os.path.join(root, file), contents)` triples contributed by
one directory's immediate files, in listing order — the inner
`for file in files` loop of one `os.walk` step. -/
def filesOf (path : String) : FSEntries → List (String × String × Option (List String))
  | FSEntries.nil => []
  | FSEntries.cons (FSEntry.file n c) rest => (n, pyJoin path n, c) :: filesOf path rest
  | FSEntries.cons (FSEntry.dir _ _) rest => filesOf path rest

/-- The triples contributed by the recursive descent of `os.walk` into every
subdirectory (hidden or not: `os.walk` prunes nothing here, and the code
never filters `dirnames`), each yielded after the parent directory's own
files. -/
def dirsWalk (path : String) : FSEntries → List (String × String × Option (List String))
  | FSEntries.nil => []
  | FSEntries.cons (FSEntry.file _ _) rest => dirsWalk path rest
  | FSEntries.cons (FSEntry.dir n es) rest =>
      (filesOf (pyJoin path n) es ++ dirsWalk (pyJoin path n) es) ++ dirsWalk path rest

/-- All `(file, file_path, contents)` triples visited by
`for root, _, files in os.walk(path)` when `path` names a directory with
contents `entries`: the top directory's files, then each subtree. -/
def walkItems (path : String) (entries : FSEntries) : List (String × String × Option (List String)) :=
  filesOf path entries ++ dirsWalk path entries

/-- The metadata block appended for a hit (src/tools.py lines 225-229):
`'\n'.join((f"file_path: ...", f"line_number: ...", f"line_content: ..."))`
with the 1-based line number and the stripped line. -/
def hitMeta (file_path : String) (i : Nat) (line : String) : String :=
  String.intercalate "\n"
    ["file_path: " ++ file_path, "line_number: " ++ toString (i + 1),
     "line_content: " ++ pyStripS line]

/-- The hits contributed by one readable file: one metadata block per line
accepted by the two-stage check, in ascending line order. -/
def fileHits (query fp : String) (lines : List String) : List String :=
  lines.enum.filterMap
    (fun pr => if hitLine query pr.2 then some (hitMeta fp pr.1 pr.2) else none)

/-- The full `search_results` accumulation of `perform_string_search`:
skip files whose own name starts with `.` (the only name filter in the
function), skip files whose open/decode raised (bare `except: pass`),
collect `fileHits` from the rest. -/
def collectHits (query : String) : List (String × String × Option (List String)) → List String
  | [] => []
  | (name, fp, copt) :: rest =>
      (if strStartsWith name "." then []
       else
         match copt with
         | none => []
         | some lines => fileHits query fp lines) ++ collectHits query rest

/-- `search_results[:search_results_limit]` (src/tools.py lines 234-235):
the collected hits truncated to the first 100. -/
def searchHits (query path : String) (entries : FSEntries) : List String :=
  (collectHits query (walkItems path entries)).take 100

/-- `perform_string_search(query, path)` (src/tools.py lines 169-236) over a
modelled directory tree: join the (at most 100) hits with blank lines, or
return the no-match message when the joined text is empty (falsy). -/
def perform_string_search (query path : String) (entries : FSEntries) : String :=
  let formatted := String.intercalate "\n\n" (searchHits query path entries)
  if formatted = "" then "No exact matches found for query: " ++ query else formatted

/-!
## PathRenderer: `list_directory_contents` (src/tools.py lines 7-107)

Modelled for a POSIX filesystem (`os.sep = '/'`, `os.name != 'nt'`), which is
the deployment the source targets.
-/

/-- `os.path.normpath` for POSIX paths (CPython `posixpath.normpath`):
collapse repeated separators and `.` components, resolve `..` against
preceding components, preserve a leading `//` exactly. -/
def normpath (p : String) : String :=
  if p = "" then "."
  else
    let initialSlashes : Nat :=
      if strStartsWith p "/" then
        (if strStartsWith p "//" && !(strStartsWith p "///") then 2 else 1)
      else 0
    let comps := strSplitSlash p
    let newComps := comps.foldl
      (fun acc comp =>
        if comp = "" ∨ comp = "." then acc
        else if comp ≠ ".." ∨ (initialSlashes = 0 ∧ acc = []) ∨ acc.getLast? = some ".." then
          acc ++ [comp]
        else if acc ≠ [] then acc.dropLast
        else acc)
      ([] : List String)
    let joined := String.intercalate "/" newComps
    let res := String.mk (List.replicate initialSlashes '/') ++ joined
    if res = "" then "." else res

/-- A directory entry name together with whether `os.path.isdir` holds for
it under the listed directory. -/
structure DirEntry where
  name : String
  isDir : Bool

/-- The outcome of `os.listdir(path)`: the entries, a raised
`PermissionError`, or a raised `FileNotFoundError`. -/
inductive ListdirResult where
  | ok (entries : List DirEntry)
  | permissionDenied
  | notFound

/-- `s * n` for strings: `n` concatenated copies. -/
def strRepeat (s : String) (n : Nat) : String := String.join (List.replicate n s)

/-- Lexicographic `≤` by code point on code-point lists — the order Python
uses to compare the `str` sort keys. -/
def listLexLe : List Char → List Char → Bool
  | [], _ => true
  | _ :: _, [] => false
  | a :: as, b :: bs => if a < b then true else if b < a then false else listLexLe as bs

/-- The comparison realised by `entries.sort(key=lambda e: e.lower())`
(line 98 of src/tools.py): compare lowercased names lexicographically. -/
def ciLE (a b : DirEntry) : Prop :=
  listLexLe (strLower a.name).data (strLower b.name).data = true

instance : DecidableRel ciLE := fun a b =>
  inferInstanceAs (Decidable (_ = true))

instance : IsTotal DirEntry ciLE where
  total := by
    have key : ∀ a b : List Char, listLexLe a b = true ∨ listLexLe b a = true := by
      intro a
      induction a with
      | nil => intro b; left; rfl
      | cons x xs ih =>
        intro b
        cases b with
        | nil => right; rfl
        | cons y ys =>
          rcases lt_trichotomy x y with h | h | h
          · left; simp [listLexLe, h]
          · subst h
            rcases ih ys with hh | hh
            · left; simpa [listLexLe, lt_self_iff_false] using hh
            · right; simpa [listLexLe, lt_self_iff_false] using hh
          · right; simp [listLexLe, h]
    exact fun a b => key _ _

instance : IsTrans DirEntry ciLE where
  trans := by
    have key : ∀ a b c : List Char,
        listLexLe a b = true → listLexLe b c = true → listLexLe a c = true := by
      intro a
      induction a with
      | nil => intro b c _ _; rfl
      | cons x xs ih =>
        intro b c hab hbc
        cases b with
        | nil => simp [listLexLe] at hab
        | cons y ys =>
          cases c with
          | nil => simp [listLexLe] at hbc
          | cons z zs =>
            rcases lt_trichotomy x y with hxy | hxy | hxy
            · rcases lt_trichotomy y z with hyz | hyz | hyz
              · simp [listLexLe, lt_trans hxy hyz]
              · subst hyz; simp [listLexLe, hxy]
              · simp [listLexLe, asymm hyz, hyz] at hbc
            · subst hxy
              rcases lt_trichotomy x z with hxz | hxz | hxz
              · simp [listLexLe, hxz]
              · subst hxz
                simp only [listLexLe, lt_self_iff_false, if_false] at hab hbc ⊢
                exact ih ys zs hab hbc
              · simp [listLexLe, asymm hxz, hxz] at hbc
            · simp [listLexLe, asymm hxy, hxy] at hab
    exact fun a b c => key _ _ _

/-- The `root` and `hierarchy` computed on lines 65-79 of src/tools.py from
the normalised path (POSIX branch: `root = '/'` for absolute paths, else
`parts[0] + '/'` or `"."`). -/
def ldcRootHierarchy (path : String) : String × List String :=
  let np := normpath path
  let parts := strSplitSlash np
  if strStartsWith np "/" then ("/", parts.drop 1)
  else ((if parts.headD "" ≠ "" then parts.headD "" ++ "/" else "."), parts.drop 1)

/-- The ancestor-chain lines (lines 83-87 of src/tools.py): one line per
non-empty hierarchy segment, indented by its `enumerate` depth. -/
def ldcHierLines (hierarchy : List String) : List String :=
  hierarchy.enum.filterMap
    (fun pr =>
      if pr.2 = "" then none
      else some (strRepeat "    " pr.1 ++ "└── " ++ pr.2 ++ "/"))

/-- `base_indent` (line 90): four spaces per non-empty hierarchy segment. -/
def ldcBaseIndent (hierarchy : List String) : String :=
  strRepeat "    " (hierarchy.filter (fun p => p ≠ "")).length

/-- Lines 93-98: keep entries whose name does not start with `.`, then sort
with `key=lambda e: e.lower()` (Python's sort is stable; so is
`List.insertionSort` for a total preorder). -/
def ldcSort (entries : List DirEntry) : List DirEntry :=
  List.insertionSort ciLE (entries.filter (fun e => !(strStartsWith e.name ".")))

/-- Lines 100-105: one line per sorted entry, terminal connector for the last
entry, trailing `/` for directories. -/
def ldcEntryLines (baseIndent : String) (entries : List DirEntry) : List String :=
  entries.enum.map
    (fun pr =>
      (baseIndent ++ (if pr.1 = entries.length - 1 then "└── " else "├── ")) ++
        pr.2.name ++ (if pr.2.isDir then "/" else ""))

/-- `list_directory_contents(path)` (src/tools.py lines 7-107).
A `PermissionError` from `os.listdir` is caught and replaced by an inline
`[permission denied]` line (lines 94-96); any other listing failure — in
particular `FileNotFoundError` for a missing directory — is not caught and
propagates (`Except.error`).  Both normal returns truncate to
`character_limit` characters. -/
def list_directory_contents (fs : String → ListdirResult) (path : String) : Except String String :=
  match fs (normpath path) with
  | ListdirResult.permissionDenied =>
      Except.ok (pyTrunc (String.intercalate "\n"
        (((ldcRootHierarchy path).1 :: ldcHierLines (ldcRootHierarchy path).2)
          ++ [ldcBaseIndent (ldcRootHierarchy path).2 ++ "    └── [permission denied]"])) CHAR_LIMIT)
  | ListdirResult.notFound => Except.error "FileNotFoundError: No such file or directory"
  | ListdirResult.ok entries =>
      Except.ok (pyTrunc (String.intercalate "\n"
        (((ldcRootHierarchy path).1 :: ldcHierLines (ldcRootHierarchy path).2)
          ++ ldcEntryLines (ldcBaseIndent (ldcRootHierarchy path).2) (ldcSort entries))) CHAR_LIMIT)

/-!
## SemanticSearcher: `perform_semantic_search` (src/tools.py lines 239-283)

The vector index itself is built by external libraries (llama-index, FAISS,
OpenAI embeddings — src/create_index.py); the retriever produced by
`index.as_retriever(similarity_top_k=5)` is abstracted as a function from
the index and the query to the retrieved node texts.  Streamlit's
`st.session_state` raises `AttributeError` when an attribute that was never
assigned — here `index`, assigned only after a build — is read.
-/

/-- The built vector index (chunk texts plus their embedding data are owned
by the external store; only its existence matters to the tool contract). -/
structure VIndex where
  nodes : List String

/-- The Streamlit session state visible to the tool: `index` is set only
after `index_repository` has run (src/main.py line 102). -/
structure SessionState where
  index : Option VIndex

/-- `perform_semantic_search(query)` (src/tools.py lines 280-283):
`st.session_state.index` raises `AttributeError` when no index was ever
built; otherwise the top-5 retrieved node texts are joined with blank
lines — with no character truncation. -/
def perform_semantic_search (ss : SessionState) (retrieve : VIndex → String → List String)
    (query : String) : Except String String :=
  match ss.index with
  | none => Except.error "AttributeError: st.session_state has no attribute index"
  | some idx => Except.ok (String.intercalate "\n\n" (retrieve idx query))

/-!
## Observation helpers and concrete fixtures
-/

/-- Whether a tool call returned normally (`true`) or raised (`false`). -/
def exceptIsOk : Except String String → Bool
  | Except.ok _ => true
  | Except.error _ => false

/-- The length of the text a tool call returned (0 for a raised fault,
which returns no text). -/
def okLength : Except String String → Nat
  | Except.error _ => 0
  | Except.ok s => s.length

/-- Fixture: a directory `a` containing the file `b.py` and the hidden file
`.env` (the scenario of spec §8). -/
def fs9 : String → ListdirResult := fun p =>
  if p = "a" then ListdirResult.ok [⟨"b.py", false⟩, ⟨".env", false⟩]
  else ListdirResult.notFound

/-- Fixture: every listing raises `PermissionError`. -/
def fsPermW : String → ListdirResult := fun _ => ListdirResult.permissionDenied

/-- Fixture: every listing raises `FileNotFoundError`. -/
def fsNotFoundW : String → ListdirResult := fun _ => ListdirResult.notFound

/-- Fixture: every open raises `FileNotFoundError`. -/
def fsMissingFile : String → Except String (List String) := fun p =>
  Except.error ("FileNotFoundError: No such file or directory: " ++ p)

/-- Fixture: `f.txt` is a readable two-line file. -/
def twoLineFile : String → Except String (List String) := fun p =>
  if p = "f.txt" then Except.ok ["a\n", "b\n"]
  else Except.error "FileNotFoundError: No such file or directory"

/-- Fixture: `six.txt` is a readable six-line file. -/
def sixLineFile : String → Except String (List String) := fun p =>
  if p = "six.txt" then Except.ok ["l0\n", "l1\n", "l2\n", "l3\n", "l4\n", "l5\n"]
  else Except.error "FileNotFoundError: No such file or directory"

/-- Fixture: a repository whose only file lives inside the hidden directory
`.git`. -/
def gitRepoEntries : FSEntries :=
  FSEntries.cons
    (FSEntry.dir ".git"
      (FSEntries.cons (FSEntry.file "config" (some ["token = abc\n"])) FSEntries.nil))
    FSEntries.nil

/-- A single line of 50003 characters: `q`, a space, then 50001 `a`s. -/
def bigChars : List Char := ('q' :: ' ' :: List.replicate 50000 'a') ++ ['a']

/-- The 50003-character line as a string. -/
def bigLine : String := String.mk bigChars

/-- Fixture: a repository whose only file consists of the single huge line. -/
def bigRepoEntries : FSEntries :=
  FSEntries.cons (FSEntry.file "f" (some [bigLine])) FSEntries.nil

/-!
## Helper lemmas
-/

/-- Truncation really caps the character count. -/
theorem pyTrunc_length_le (s : String) (n : Nat) : (pyTrunc s n).length ≤ n :=
  List.length_take_le n s.data

/-- `List.any` only depends on the pointwise behaviour of its predicate. -/
theorem any_eq_of_fun {α : Type} (l : List α) (p q : α → Bool) (h : ∀ x, p x = q x) :
    l.any p = l.any q := by
  induction l with
  | nil => rfl
  | cons a t ih => simp [List.any_cons, h, ih]

/-- On a pattern free of `.`, the wildcard matcher coincides with the
literal matcher. -/
theorem patMatchAt_eq_startsWith (q : List Char) (h : ∀ c ∈ q, (c == '.') = false) :
    ∀ s : List Char, patMatchAt q s = listStartsWith q s := by
  induction q with
  | nil => intro s; cases s <;> rfl
  | cons p ps ih =>
    intro s
    cases s with
    | nil => rfl
    | cons c cs =>
      have hp : (p == '.') = false := h p (List.mem_cons_self p ps)
      have ihs := ih (fun c hc => h c (List.mem_cons_of_mem _ hc)) cs
      simp [patMatchAt, listStartsWith, patCharMatch, hp, ihs]

/-- A whole-word literal match somewhere in the line implies plain substring
containment, so the `query in line` pre-filter never rejects a line the
literal boundary check would accept. -/
theorem litWordSearch_imp_substr (q l : List Char) (h : litWordSearch q l = true) :
    pySubstr q l = true := by
  unfold litWordSearch at h
  rcases List.any_eq_true.mp h with ⟨i, hi, hp⟩
  simp only [Bool.and_eq_true] at hp
  exact List.any_eq_true.mpr ⟨i, hi, hp.1.2⟩

/-!
## Claim theorems
-/

/-- Claim C2 (status: code_bug): the claim — and the function's own
docstring — say a file that cannot be opened yields a descriptive
`"Error reading file: ..."` string, but the `open`/`readlines` calls sit
outside the `try` block, so the exception propagates: on a missing file the
call raises (`Except.error`) and returns no string at all. -/
theorem load_file_contents_raises_on_missing_file :
    load_file_contents fsMissingFile "nonexistent/file.txt" 0 none
        = Except.error "FileNotFoundError: No such file or directory: nonexistent/file.txt"
    ∧ exceptIsOk (load_file_contents fsMissingFile "nonexistent/file.txt" 0 none) = false :=
  ⟨rfl, rfl⟩

/-- Claim C3 (status: code_bug): for the two-line file `["a\n", "b\n"]` the
request `line_start = 0, line_end = 0` must return exactly line 0 (`"a\n"`),
but `(line_end + 1) if line_end else None` treats `line_end = 0` as falsy,
so the code returns the whole file — the same output as `line_end = None`. -/
theorem load_file_contents_line_end_zero_returns_whole_file :
    load_file_contents twoLineFile "f.txt" 0 (some 0) = Except.ok "a\nb\n"
    ∧ load_file_contents twoLineFile "f.txt" 0 none = Except.ok "a\nb\n"
    ∧ (("a\nb\n" : String) == "a\n") = false :=
  ⟨rfl, rfl, rfl⟩

/-- Claim C7 (status: code_bug): with the six-line file, the empty-slice
sentinel is produced for `line_end < line_start` with a positive `line_end`
(request `(5, 2)`) and for `line_start` past the last line (request
`(9, None)`), but the claimed case `line_end = 0 < line_start = 5` instead
returns line 5, because `line_end = 0` is treated as `None`. -/
theorem empty_slice_sentinel_fails_for_line_end_zero :
    load_file_contents sixLineFile "six.txt" 5 (some 0) = Except.ok "l5\n"
    ∧ load_file_contents sixLineFile "six.txt" 5 (some 2) = Except.ok "No text was returned."
    ∧ load_file_contents sixLineFile "six.txt" 9 none = Except.ok "No text was returned."
    ∧ (("l5\n" : String) == "No text was returned.") = false :=
  ⟨rfl, rfl, rfl, rfl⟩

/-- Claim C5 (status: confirmed): the hit list joined into the result of
`perform_string_search` is `search_results[:100]`, so it never holds more
than 100 hits, whatever the query, root and repository contents. -/
theorem string_search_at_most_100_hits (query path : String) (entries : FSEntries) :
    (searchHits query path entries).length ≤ 100 :=
  List.length_take_le 100 _

/-- Claim C6 (status: confirmed): reading `st.session_state.index` before a
build raises `AttributeError`, so `perform_semantic_search` fails with a
hard fault for every query and every retriever — it is never `Except.ok`,
in particular never the `Except.ok ""` that an index with zero matches
produces, so the two situations are distinguishable by the caller. -/
theorem semantic_search_fails_without_index
    (retrieve : VIndex → String → List String) (query : String) :
    perform_semantic_search ⟨none⟩ retrieve query
        = Except.error "AttributeError: st.session_state has no attribute index"
    ∧ exceptIsOk (perform_semantic_search ⟨none⟩ retrieve query) = false
    ∧ (∀ idx : VIndex, perform_semantic_search ⟨some idx⟩ (fun _ _ => []) query
        = Except.ok "") :=
  ⟨rfl, rfl, fun _ => rfl⟩

/-- Claim C10 (status: confirmed): the only name filter in
`perform_string_search` is on the file's own name, and `os.walk` descends
into every subdirectory: in the repository whose sole file is
`.git/config`, the line of that file is reported as a hit. -/
theorem string_search_descends_hidden_dirs :
    perform_string_search "token" "r" gitRepoEntries =
      "file_path: r/.git/config\nline_number: 1\nline_content: token = abc" := by
  rfl

/-- Claim C4, counterexample (status: corrected): the query `a.b` contains
the regex metacharacter `.`, which the code injects unescaped into the
pattern.  On the line `xa.by aqb` the substring pre-filter passes (the line
contains `a.b` literally) and `re.search(r'\ba.b\b', line)` matches the
word `aqb`, so the two-stage check accepts the line — while a whole-word
match of the escaped literal `a\.b` rejects it (the only literal occurrence
sits inside the word `xa.by`, with no boundary before it). -/
theorem two_stage_check_differs_on_metachar_query :
    hitLine "a.b" "xa.by aqb" = true
    ∧ literalWordAccepts "a.b" "xa.by aqb" = false := by
  constructor <;> decide

/-- Claim C4, amended (status: corrected): for every query free of regex
metacharacters, the two-stage check (substring pre-filter, then
boundary-anchored regex confirmation) accepts a line exactly when the
direct whole-word literal boundary match accepts it. -/
theorem two_stage_check_eq_literal_word_on_plain_query (query line : String)
    (h : query.data.all (fun c => !isRegexMeta c) = true) :
    hitLine query line = literalWordAccepts query line := by
  have hdot : ∀ c ∈ query.data, (c == '.') = false := by
    intro c hc
    have hm : (!isRegexMeta c) = true := List.all_eq_true.mp h c hc
    cases hq : (c == '.') with
    | false => rfl
    | true =>
      have : c = '.' := by exact beq_iff_eq.mp hq
      subst this
      simp [isRegexMeta] at hm
  have hpat := patMatchAt_eq_startsWith query.data hdot
  have hws : wordBoundSearch query.data line.data = litWordSearch query.data line.data := by
    unfold wordBoundSearch litWordSearch
    exact any_eq_of_fun _ _ _ (fun i => by rw [hpat])
  unfold hitLine literalWordAccepts
  rw [hws]
  cases hl : litWordSearch query.data line.data with
  | true => rw [litWordSearch_imp_substr _ _ hl]; rfl
  | false => exact Bool.and_false _

/-- Witness for the amended claim C4 at the metacharacter-free query `foo`
on the line `a foo b`. -/
theorem two_stage_check_eq_literal_word_on_plain_query_witness :
    ("foo".data.all (fun c => !isRegexMeta c) = true)
    ∧ hitLine "foo" "a foo b" = literalWordAccepts "foo" "a foo b" :=
  ⟨by decide, two_stage_check_eq_literal_word_on_plain_query "foo" "a foo b" (by decide)⟩

/-- Claim C8 (status: confirmed): when `os.listdir` raises
`PermissionError`, `list_directory_contents` returns normally with the
inline `[permission denied]` line appended to the hierarchy view; when the
target directory does not exist, the `FileNotFoundError` is not caught and
the call raises instead of returning text. -/
theorem listing_error_channels (fs : String → ListdirResult) (path : String) :
    (fs (normpath path) = ListdirResult.permissionDenied →
      list_directory_contents fs path =
        Except.ok (pyTrunc (String.intercalate "\n"
          (((ldcRootHierarchy path).1 :: ldcHierLines (ldcRootHierarchy path).2)
            ++ [ldcBaseIndent (ldcRootHierarchy path).2 ++ "    └── [permission denied]"]))
          CHAR_LIMIT))
    ∧ (fs (normpath path) = ListdirResult.notFound →
      exceptIsOk (list_directory_contents fs path) = false) := by
  constructor
  · intro h
    unfold list_directory_contents
    rw [h]
  · intro h
    unfold list_directory_contents
    rw [h]
    rfl

/-- Witness for claim C8: concrete filesystems where listing `a` raises
`PermissionError` (inline marker, normal return) and `FileNotFoundError`
(propagated fault). -/
theorem listing_error_channels_witness :
    list_directory_contents fsPermW "a" =
      Except.ok (pyTrunc (String.intercalate "\n"
        (((ldcRootHierarchy "a").1 :: ldcHierLines (ldcRootHierarchy "a").2)
          ++ [ldcBaseIndent (ldcRootHierarchy "a").2 ++ "    └── [permission denied]"]))
        CHAR_LIMIT)
    ∧ exceptIsOk (list_directory_contents fsNotFoundW "a") = false :=
  ⟨(listing_error_channels fsPermW "a").1 rfl, (listing_error_channels fsNotFoundW "a").2 rfl⟩

/-- Claim C9 (status: confirmed): the entry lines of
`list_directory_contents` are built from exactly the immediate entries whose
names do not start with `.` (a permutation — nothing added or dropped),
arranged in case-insensitive sorted order; concretely, for the directory `a`
holding `b.py` and the hidden `.env`, the output lists `b.py` only. -/
theorem listing_entries_filtered_sorted (entries : List DirEntry) :
    List.Perm ((ldcSort entries).map DirEntry.name)
      ((entries.filter (fun e => !(strStartsWith e.name "."))).map DirEntry.name)
    ∧ List.Sorted ciLE (ldcSort entries)
    ∧ list_directory_contents fs9 "a" = Except.ok ("a/" ++ "\n" ++ "└── b.py") := by
  refine ⟨?_, ?_, ?_⟩
  · exact (List.perm_insertionSort ciLE _).map _
  · exact List.sorted_insertionSort ciLE _
  · rfl

/-- A strip is the identity when neither end of the text is whitespace. -/
theorem pyStrip_eq_self (l : List Char)
    (h1 : ∀ c, l.head? = some c → pyIsSpace c = false)
    (h2 : ∀ c, l.getLast? = some c → pyIsSpace c = false) :
    pyStrip l = l := by
  unfold pyStrip
  have ha : l.dropWhile pyIsSpace = l := by
    cases l with
    | nil => rfl
    | cons a t =>
      have hx : pyIsSpace a = false := h1 a rfl
      rw [List.dropWhile_cons, if_neg (by simp [hx])]
  rw [ha]
  have hb : l.reverse.dropWhile pyIsSpace = l.reverse := by
    cases hr : l.reverse with
    | nil => rfl
    | cons a t =>
      have hla : l.getLast? = some a := by
        rw [← List.head?_reverse, hr]
        rfl
      have hx : pyIsSpace a = false := h2 a hla
      rw [List.dropWhile_cons, if_neg (by simp [hx])]
  rw [hb, List.reverse_reverse]

/-- The huge line has 50003 characters. -/
theorem bigChars_length : bigChars.length = 50003 := by
  show (('q' :: ' ' :: List.replicate 50000 'a') ++ ['a']).length = 50003
  rw [List.length_append, List.length_cons, List.length_cons, List.length_replicate]
  rfl

/-- Stripping the huge line leaves it unchanged. -/
theorem pyStrip_bigChars : pyStrip bigChars = bigChars := by
  apply pyStrip_eq_self
  · intro c hc
    rw [show bigChars.head? = some 'q' from rfl] at hc
    cases hc
    decide
  · intro c hc
    rw [show bigChars.getLast? = some 'a' from
        (by exact List.getLast?_concat _ : (('q' :: ' ' :: List.replicate 50000 'a') ++ ['a']).getLast? = some 'a')] at hc
    cases hc
    decide

/-- The hit metadata block for the huge line spelled out: a 44-character
header followed by the stripped 50003-character line. -/
theorem hitMeta_big_eq :
    hitMeta "r/f" 0 bigLine =
      "file_path: r/f\nline_number: 1\nline_content: " ++ pyStripS bigLine := by
  simp only [hitMeta]
  generalize pyStripS bigLine = x
  cases x with
  | mk l => rfl

/-- The hit metadata block for the huge line has 50047 characters. -/
theorem hitMeta_big_length : (hitMeta "r/f" 0 bigLine).length = 50047 := by
  have hstripLen : (pyStripS bigLine).length = 50003 := by
    unfold pyStripS
    rw [show bigLine.data = bigChars from rfl, pyStrip_bigChars]
    exact bigChars_length
  rw [hitMeta_big_eq, String.length_append, hstripLen]
  decide

/-- Claim C1, counterexample (status: corrected): `perform_string_search`
applies no character truncation — only the 100-hit cap — so a single
matching line of 50003 characters produces a 50047-character result,
exceeding the claimed 50,000-character bound. -/
theorem string_search_output_exceeds_cap :
    CHAR_LIMIT < (perform_string_search "q" "r" bigRepoEntries).length := by
  have hsub : pySubstr "q".data bigLine.data = true := by
    refine List.any_eq_true.mpr ⟨0, ?_, ?_⟩
    · exact List.mem_range.mpr (by omega)
    · rfl
  have hwb : wordBoundSearch "q".data bigLine.data = true := by
    refine List.any_eq_true.mpr ⟨0, ?_, ?_⟩
    · exact List.mem_range.mpr (by omega)
    · rfl
  have hhit : hitLine "q" bigLine = true := by
    unfold hitLine
    rw [hsub, hwb]
    rfl
  have hfh : fileHits "q" "r/f" [bigLine] = [hitMeta "r/f" 0 bigLine] := by
    simp [fileHits, List.enum, List.enumFrom, hhit]
  have hcoll : collectHits "q" (walkItems "r" bigRepoEntries) = [hitMeta "r/f" 0 bigLine] := by
    rw [show walkItems "r" bigRepoEntries = [("f", "r/f", some [bigLine])] from rfl]
    simp [collectHits, hfh, show strStartsWith "f" "." = false from rfl]
  have hsearch : searchHits "q" "r" bigRepoEntries = [hitMeta "r/f" 0 bigLine] := by
    unfold searchHits
    rw [hcoll]
    rfl
  have hps : perform_string_search "q" "r" bigRepoEntries = hitMeta "r/f" 0 bigLine := by
    unfold perform_string_search
    rw [hsearch]
    rw [show String.intercalate "\n\n" [hitMeta "r/f" 0 bigLine] = hitMeta "r/f" 0 bigLine from rfl]
    rw [if_neg ?hne]
    case hne =>
      intro h
      have h2 := congrArg String.length h
      rw [hitMeta_big_length] at h2
      exact absurd h2 (by decide)
  rw [hps, hitMeta_big_length]
  decide

/-- Claim C1, amended (status: corrected): only `list_directory_contents`
and `load_file_contents` cap their returned text at 50,000 characters (on
every input and every filesystem, whatever text they return is within the
cap); `perform_string_search` and `perform_semantic_search` apply no
character cap — the former is bounded only by the 100-hit limit
(see `string_search_at_most_100_hits`'s subject) and the latter only by the
retriever's top-5 limit. -/
theorem listing_and_read_capped (fs : String → ListdirResult) (path : String)
    (ffs : String → Except String (List String)) (fpath : String)
    (line_start : Nat) (line_end : Option Nat) :
    okLength (list_directory_contents fs path) ≤ CHAR_LIMIT
    ∧ okLength (load_file_contents ffs fpath line_start line_end) ≤ CHAR_LIMIT := by
  constructor
  · unfold list_directory_contents
    cases fs (normpath path) with
    | ok entries => exact pyTrunc_length_le _ _
    | permissionDenied => exact pyTrunc_length_le _ _
    | notFound => exact Nat.zero_le _
  · unfold load_file_contents
    cases ffs fpath with
    | error e => exact Nat.zero_le _
    | ok lines =>
      show (load_file_slice lines line_start line_end).length ≤ CHAR_LIMIT
      simp only [load_file_slice]
      split
      · decide
      · exact pyTrunc_length_le _ _
